import Mathlib

/-!
Verification of the IBM IAM signer and credential provider
(`aws/signer/ibm/ibm.go`: package `ibm` and package `ibmcreds`).

The two Go files are shallowly embedded as pure Lean functions.  Effects
are made explicit:

* the single HTTP form POST issued by `getCredentials` is represented by
  a transport function `post : FormRequest → PostResult` passed as an
  argument, and the request actually handed to it is returned as part of
  the result so that theorems may speak about the URL and form body;
* the mutation of the embedded `credentials.Expiry` state performed by
  `SetExpiration` is represented by returning an updated `Provider`;
* Go error values are an inductive `GoError`; a fallible computation
  returns `Except GoError _` or carries an `Option GoError` field;
* the JSON decoder (`encoding/json`, Go standard library, external to
  this repository) is modelled by letting a response `Body` already be
  classified as malformed or as a well-formed token response, and
  `decodeGetCredentialsOutput` mapping that classification to exactly
  the outcome the decoder produces.
-/

namespace IBMSDK

/-- Go error values that arise in this package: a transport failure from
`http.PostForm`, the `fmt.Errorf` non-200 status error of
`getCredentials`, a JSON decode error from `encoding/json`, and a
structured `awserr.New code message origErr` error.  In this package
`awserr.New` is only ever called with a non-nil `origErr`, so the
original error is carried directly. -/
inductive GoError where
  | transportErr (msg : String)
  | statusErr (status : Nat)
  | jsonDecodeErr (msg : String)
  | awsErr (code : String) (message : String) (origErr : GoError)
  deriving DecidableEq, Repr

/-- The body of an HTTP response, as seen by the JSON decoder: either not
well-formed JSON, or a well-formed token response carrying the
`expiration` and `access_token` fields. -/
inductive Body where
  | malformed (msg : String)
  | wellFormed (expiration : Int) (access_token : String)
  deriving DecidableEq, Repr

/-- The part of `http.Response` that `getCredentials` reads. -/
structure HTTPResponse where
  StatusCode : Nat
  RespBody : Body
  deriving DecidableEq, Repr

/-- Outcome of `http.PostForm`: a transport error, or a response. -/
inductive PostResult where
  | postErr (e : GoError)
  | ok (resp : HTTPResponse)
  deriving DecidableEq, Repr

/-- The form POST issued by `getCredentials`: target URL and the
`url.Values` form body (each key mapped to a list of values). -/
structure FormRequest where
  url : String
  form : List (String × List String)
  deriving DecidableEq, Repr

/-- `getCredentialsOutput`: the decoded token-endpoint response
(`expiration int64`, `access_token string`). -/
structure getCredentialsOutput where
  Expiration : Int
  AccessToken : String
  deriving DecidableEq, Repr

/-- Outcome of `json.NewDecoder(resp.Body).Decode(out)` on a body: a
decode error when the body is not well-formed JSON, the decoded output
otherwise. -/
def decodeGetCredentialsOutput : Body → Except GoError getCredentialsOutput
  | .malformed msg => .error (.jsonDecodeErr msg)
  | .wellFormed e tok => .ok { Expiration := e, AccessToken := tok }

/-- Modelled from the spec: the host SDK type `credentials.Expiry`
(declared in this repository outside the two embedded files).  It caches
the adjusted expiration instant; `none` means no credentials have been
retrieved yet.  Time is an abstract instant (an integer). -/
structure Expiry where
  expiration : Option Int
  deriving DecidableEq, Repr

/-- Modelled from the spec: `Expiry.SetExpiration` records the given
expiration, moved earlier by the window.  Per the `ExpiryWindow` field
documentation in the source file, a window of 0 or less is ignored. -/
def Expiry.SetExpiration (_e : Expiry) (expiration window : Int) : Expiry :=
  { expiration := some (if 0 < window then expiration - window else expiration) }

/-- Modelled from the spec: `Expiry.IsExpired` is true once
`now >= expiration - expiry_window` (the stored adjusted expiration),
and true whenever no expiration has been recorded yet. -/
def Expiry.IsExpired (e : Expiry) (now : Int) : Bool :=
  match e.expiration with
  | none => true
  | some exp => decide (exp ≤ now)

/-- `ProviderName` is the name of the credentials provider. -/
def ProviderName : String := "IBMIAMProvider"

/-- `defaultIAMEndPoint` is the default URL of the IBM IAM endpoint. -/
def defaultIAMEndPoint : String := "https://iam.bluemix.net/oidc/token"

/-- `Provider`: the credentials provider state.  The embedded
`credentials.Expiry` is the `expiry` field. -/
structure Provider where
  expiry : Expiry
  apiKey : String
  serviceInstanceID : String
  IAMEndpoint : String
  ExpiryWindow : Int
  deriving DecidableEq, Repr

/-- `credentials.Value` (the fields this package sets): service-instance
id, session token, provider name.  Fields not set by this package are
omitted. -/
structure Value where
  ServiceInstanceID : String
  SessionToken : String
  ProviderName : String
  deriving DecidableEq, Repr

/-- The `url.Values` form body and URL of the POST that
`getCredentials` issues. -/
def Provider.postFormRequest (p : Provider) : FormRequest :=
  { url := if p.IAMEndpoint != "" then p.IAMEndpoint ++ "/oidc/token" else defaultIAMEndPoint,
    form := [("grant_type", ["urn:ibm:params:oauth:grant-type:apikey"]),
             ("response_type", ["cloud_iam"]),
             ("apikey", [p.apiKey])] }

/-- `Provider.getCredentials`: issue the form POST, fail on a transport
error, fail with the status error when the status is not 200, otherwise
decode the body.  Returns the issued request together with the
outcome. -/
def Provider.getCredentials (p : Provider) (post : FormRequest → PostResult) :
    FormRequest × Except GoError getCredentialsOutput :=
  (p.postFormRequest,
    match post p.postFormRequest with
    | .postErr e => .error e
    | .ok resp =>
        if resp.StatusCode != 200 then
          .error (.statusErr resp.StatusCode)
        else
          match decodeGetCredentialsOutput resp.RespBody with
          | .error e => .error e
          | .ok out => .ok out)

/-- Result of `Provider.Retrieve`: the request issued to the token
endpoint, the provider state afterwards, the returned
`credentials.Value`, and the returned error (`none` on success). -/
structure RetrieveResult where
  issuedRequest : FormRequest
  provider : Provider
  value : Value
  retErr : Option GoError
  deriving DecidableEq, Repr

/-- `Provider.Retrieve`: call `getCredentials`; on failure return a
value holding only the provider name together with
`awserr.New("CredentialsEndpointError", "failed to load credentials", err)`;
on success record the expiration (shifted by the expiry window) and
return the service-instance id, the access token as session token, and
the provider name. -/
def Provider.Retrieve (p : Provider) (post : FormRequest → PostResult) : RetrieveResult :=
  match (p.getCredentials post).2 with
  | .error e =>
      { issuedRequest := (p.getCredentials post).1
        provider := p
        value := { ServiceInstanceID := "", SessionToken := "", ProviderName := ProviderName }
        retErr := some (.awsErr "CredentialsEndpointError" "failed to load credentials" e) }
  | .ok out =>
      { issuedRequest := (p.getCredentials post).1
        provider := { p with expiry := p.expiry.SetExpiration out.Expiration p.ExpiryWindow }
        value := { ServiceInstanceID := p.serviceInstanceID
                   SessionToken := out.AccessToken
                   ProviderName := ProviderName }
        retErr := none }

/-- `Provider.IsExpired` delegates to the embedded `Expiry`. -/
def Provider.IsExpired (p : Provider) (now : Int) : Bool :=
  p.expiry.IsExpired now

/-- An outgoing HTTP request, reduced to its header list.  `Header.Add`
appends a key/value pair. -/
structure Request where
  Header : List (String × String)
  deriving DecidableEq, Repr

/-- `http.Header.Add`: append the key/value pair. -/
def headerAdd (h : List (String × String)) (key value : String) : List (String × String) :=
  h ++ [(key, value)]

/-- `request.Operation` (the field `Sign` reads). -/
structure Operation where
  Name : String
  deriving DecidableEq, Repr

/-- `Signer.Sign`: obtain the credentials (the outcome of
`ibm.Credentials.Get()` is the `credsResult` argument, since the
credentials cache is an external collaborator); on failure return the
error unchanged; on success add the bearer-token header and, for the
`ListBuckets` and `CreateBucket` operations only, the
service-instance-id header.  Returns the updated request and the
returned error. -/
def Signer.Sign (credsResult : Except GoError Value) (r : Request) (op : Operation) :
    Request × Option GoError :=
  match credsResult with
  | .error e => (r, some e)
  | .ok creds =>
      let r1 : Request :=
        { Header := headerAdd r.Header "Authorization" ("Bearer " ++ creds.SessionToken) }
      let r2 : Request :=
        if op.Name == "ListBuckets" || op.Name == "CreateBucket" then
          { Header := headerAdd r1.Header "ibm-service-instance-id" creds.ServiceInstanceID }
        else r1
      (r2, none)

/-- The part of `request.Request` that `SignRequest` touches. -/
structure SDKRequest where
  HTTPRequest : Request
  Operation : Operation
  Error : Option GoError
  deriving DecidableEq, Repr

/-- `SignRequest` (the named request handler): sign the request; on a
signing error record it on the request and return. -/
def SignRequest (credsResult : Except GoError Value) (req : SDKRequest) : SDKRequest :=
  let res := Signer.Sign credsResult req.HTTPRequest req.Operation
  match res.2 with
  | some e => { req with HTTPRequest := res.1, Error := some e }
  | none => { req with HTTPRequest := res.1 }

/-! Concrete transports and providers used in witnesses and
counterexamples. -/

/-- Transport that answers status 200 with a well-formed token body. -/
def postWellFormed (expiration : Int) (tok : String) : FormRequest → PostResult :=
  fun _ => .ok { StatusCode := 200, RespBody := .wellFormed expiration tok }

/-- Transport that answers status 200 with a malformed JSON body. -/
def postMalformed (msg : String) : FormRequest → PostResult :=
  fun _ => .ok { StatusCode := 200, RespBody := .malformed msg }

/-- Transport that answers with the given HTTP status and an empty body. -/
def postStatus (s : Nat) : FormRequest → PostResult :=
  fun _ => .ok { StatusCode := s, RespBody := .malformed "" }

/-- Transport that fails at the transport layer. -/
def postDown : FormRequest → PostResult :=
  fun _ => .postErr (.transportErr "connection refused")

/-- A provider configured with the default endpoint and a zero window. -/
def sampleProviderDefaultEP : Provider :=
  { expiry := { expiration := none }, apiKey := "key1",
    serviceInstanceID := "sid1", IAMEndpoint := "", ExpiryWindow := 0 }

/-- A provider configured with a custom endpoint and a positive window. -/
def sampleProviderCustomEP : Provider :=
  { expiry := { expiration := none }, apiKey := "key2",
    serviceInstanceID := "sid2", IAMEndpoint := "https://example.com", ExpiryWindow := 5 }

/-! Helper lemmas shared by several claims. -/

/-- On a `getCredentials` failure, `Retrieve` returns the unchanged
provider, a value holding only the provider name, and the wrapped
endpoint error. -/
theorem retrieve_of_getCredentials_error (p : Provider) (post : FormRequest → PostResult)
    (e : GoError) (h : (p.getCredentials post).2 = Except.error e) :
    p.Retrieve post =
      { issuedRequest := (p.getCredentials post).1
        provider := p
        value := { ServiceInstanceID := "", SessionToken := "", ProviderName := ProviderName }
        retErr := some (.awsErr "CredentialsEndpointError" "failed to load credentials" e) } := by
  unfold Provider.Retrieve
  rw [h]

/-- On a `getCredentials` success, `Retrieve` records the expiration and
returns the populated value with no error. -/
theorem retrieve_of_getCredentials_ok (p : Provider) (post : FormRequest → PostResult)
    (out : getCredentialsOutput) (h : (p.getCredentials post).2 = Except.ok out) :
    p.Retrieve post =
      { issuedRequest := (p.getCredentials post).1
        provider := { p with expiry := p.expiry.SetExpiration out.Expiration p.ExpiryWindow }
        value := { ServiceInstanceID := p.serviceInstanceID
                   SessionToken := out.AccessToken
                   ProviderName := ProviderName }
        retErr := none } := by
  unfold Provider.Retrieve
  rw [h]

/-- Claim C3: whenever `Sign` succeeds (credential retrieval returned
`creds`), the resulting header list is the original one with the
bearer-token header appended, and with the `ibm-service-instance-id`
header (carrying the service-instance id of the credentials) appended
exactly when the operation name is `ListBuckets` or `CreateBucket`; for
every other operation name it is not added. -/
theorem sign_instance_header_iff_op (creds : Value) (r : Request) (op : Operation) :
    (Signer.Sign (Except.ok creds) r op).2 = none ∧
    (Signer.Sign (Except.ok creds) r op).1.Header =
      (if op.Name == "ListBuckets" || op.Name == "CreateBucket" then
        headerAdd (headerAdd r.Header "Authorization" ("Bearer " ++ creds.SessionToken))
          "ibm-service-instance-id" creds.ServiceInstanceID
      else
        headerAdd r.Header "Authorization" ("Bearer " ++ creds.SessionToken)) := by
  refine ⟨rfl, ?_⟩
  cases hb : (op.Name == "ListBuckets" || op.Name == "CreateBucket") <;>
    simp [Signer.Sign, hb]

/-- Claim C4: whenever credential retrieval succeeds with session token
`creds.SessionToken`, `Sign` adds the header `Authorization` with value
`"Bearer "` followed by the token, and returns no error. -/
theorem sign_adds_bearer_header (creds : Value) (r : Request) (op : Operation) :
    (Signer.Sign (Except.ok creds) r op).2 = none ∧
    ("Authorization", "Bearer " ++ creds.SessionToken) ∈
      (Signer.Sign (Except.ok creds) r op).1.Header := by
  refine ⟨rfl, ?_⟩
  cases hb : (op.Name == "ListBuckets" || op.Name == "CreateBucket") <;>
    simp [Signer.Sign, hb, headerAdd]

/-- Claim C7: whenever the underlying credential retrieval fails with
error `e`, `Sign` fails returning exactly `e`, and the request-handler
`SignRequest` records exactly `e` on the request while leaving the HTTP
request unchanged (short-circuiting it). -/
theorem sign_propagates_retrieval_error (e : GoError) (r : Request) (op : Operation)
    (req : SDKRequest) :
    Signer.Sign (Except.error e) r op = (r, some e) ∧
    (SignRequest (Except.error e) req).Error = some e ∧
    (SignRequest (Except.error e) req).HTTPRequest = req.HTTPRequest := by
  exact ⟨rfl, rfl, rfl⟩

/-- Claim C8: if credential retrieval fails, `Sign` leaves the request
entirely unchanged: no header is added. -/
theorem sign_error_leaves_request_unchanged (e : GoError) (r : Request) (op : Operation) :
    (Signer.Sign (Except.error e) r op).1 = r := rfl

/-- The request `Retrieve` hands to the transport is the one built by
`getCredentials`. -/
theorem retrieve_issuedRequest (p : Provider) (post : FormRequest → PostResult) :
    (p.Retrieve post).issuedRequest = p.postFormRequest := by
  unfold Provider.Retrieve
  cases h : (p.getCredentials post).2 <;> rfl

/-- Claim C5: every call to `Retrieve` issues one HTTP form POST whose
URL is the configured endpoint followed by `/oidc/token` when the
configured endpoint is non-empty and the fixed default endpoint URL when
it is empty, with form body exactly
`grant_type=urn:ibm:params:oauth:grant-type:apikey`,
`response_type=cloud_iam`, and `apikey` set to the configured API key. -/
theorem retrieve_issues_token_post (p : Provider) (post : FormRequest → PostResult) :
    (p.IAMEndpoint ≠ "" →
      (p.Retrieve post).issuedRequest.url = p.IAMEndpoint ++ "/oidc/token") ∧
    (p.IAMEndpoint = "" →
      (p.Retrieve post).issuedRequest.url = "https://iam.bluemix.net/oidc/token") ∧
    (p.Retrieve post).issuedRequest.form =
      [("grant_type", ["urn:ibm:params:oauth:grant-type:apikey"]),
       ("response_type", ["cloud_iam"]),
       ("apikey", [p.apiKey])] := by
  rw [retrieve_issuedRequest]
  refine ⟨fun hne => ?_, fun he => ?_, rfl⟩
  · unfold Provider.postFormRequest
    simp [hne]
  · unfold Provider.postFormRequest
    simp [he, defaultIAMEndPoint]

/-- Witness for C5 at concrete providers: a custom endpoint gets
`/oidc/token` appended, an empty endpoint falls back to the default. -/
theorem retrieve_issues_token_post_witness :
    (sampleProviderCustomEP.Retrieve postDown).issuedRequest.url =
        "https://example.com" ++ "/oidc/token" ∧
    (sampleProviderDefaultEP.Retrieve postDown).issuedRequest.url =
        "https://iam.bluemix.net/oidc/token" :=
  ⟨(retrieve_issues_token_post sampleProviderCustomEP postDown).1 (by decide),
   (retrieve_issues_token_post sampleProviderDefaultEP postDown).2.1 rfl⟩

/-- Claim C6: when the HTTP transport fails or the token endpoint
responds with a non-200 status, `Retrieve` returns an endpoint error
(an awserr with code `CredentialsEndpointError` wrapping the underlying
failure) and a credential value containing no token. -/
theorem retrieve_endpoint_error (p : Provider) (post : FormRequest → PostResult)
    (h : (∃ e, post p.postFormRequest = PostResult.postErr e) ∨
         (∃ resp, post p.postFormRequest = PostResult.ok resp ∧ resp.StatusCode ≠ 200)) :
    (∃ orig, (p.Retrieve post).retErr =
        some (.awsErr "CredentialsEndpointError" "failed to load credentials" orig)) ∧
    (p.Retrieve post).value.SessionToken = "" := by
  have hgc : ∃ e, (p.getCredentials post).2 = Except.error e := by
    rcases h with ⟨e, he⟩ | ⟨resp, hr, hs⟩
    · exact ⟨e, by simp [Provider.getCredentials, he]⟩
    · refine ⟨.statusErr resp.StatusCode, ?_⟩
      simp [Provider.getCredentials, hr, hs]
  obtain ⟨e, he⟩ := hgc
  rw [retrieve_of_getCredentials_error p post e he]
  exact ⟨⟨e, rfl⟩, rfl⟩

/-- Witness for C6: a 500 status and a transport failure both yield the
wrapped endpoint error and an empty session token. -/
theorem retrieve_endpoint_error_witness :
    ((∃ orig, (sampleProviderDefaultEP.Retrieve (postStatus 500)).retErr =
        some (.awsErr "CredentialsEndpointError" "failed to load credentials" orig)) ∧
      (sampleProviderDefaultEP.Retrieve (postStatus 500)).value.SessionToken = "") ∧
    ((∃ orig, (sampleProviderCustomEP.Retrieve postDown).retErr =
        some (.awsErr "CredentialsEndpointError" "failed to load credentials" orig)) ∧
      (sampleProviderCustomEP.Retrieve postDown).value.SessionToken = "") :=
  ⟨retrieve_endpoint_error sampleProviderDefaultEP (postStatus 500)
      (Or.inr ⟨{ StatusCode := 500, RespBody := .malformed "" }, rfl, by decide⟩),
   retrieve_endpoint_error sampleProviderCustomEP postDown
      (Or.inl ⟨.transportErr "connection refused", rfl⟩)⟩

/-- Claim C9: a failed `Retrieve` leaves the provider state, in
particular its cached expiration, unchanged; the expiration is updated
only on the success path. -/
theorem retrieve_failure_preserves_expiry (p : Provider) (post : FormRequest → PostResult)
    (h : (p.Retrieve post).retErr ≠ none) :
    (p.Retrieve post).provider = p := by
  cases hgc : (p.getCredentials post).2 with
  | error e => rw [retrieve_of_getCredentials_error p post e hgc]
  | ok out =>
      exact absurd (by rw [retrieve_of_getCredentials_ok p post out hgc]) h

/-- Witness for C9: a failed retrieval against a 500-status endpoint
leaves the provider unchanged. -/
theorem retrieve_failure_preserves_expiry_witness :
    (sampleProviderDefaultEP.Retrieve (postStatus 500)).provider = sampleProviderDefaultEP :=
  retrieve_failure_preserves_expiry sampleProviderDefaultEP (postStatus 500) (by decide)

/-- Claim C10: every value returned by `Retrieve` carries provider name
`IBMIAMProvider`; on success the value additionally carries the
configured service-instance id and the access token of the response as
the session token. -/
theorem retrieve_value_provider_name (p : Provider) (post : FormRequest → PostResult) :
    (p.Retrieve post).value.ProviderName = "IBMIAMProvider" ∧
    (∀ out, (p.getCredentials post).2 = Except.ok out →
      (p.Retrieve post).value.ServiceInstanceID = p.serviceInstanceID ∧
      (p.Retrieve post).value.SessionToken = out.AccessToken) := by
  constructor
  · cases hgc : (p.getCredentials post).2 with
    | error e => rw [retrieve_of_getCredentials_error p post e hgc]; rfl
    | ok out => rw [retrieve_of_getCredentials_ok p post out hgc]; rfl
  · intro out hgc
    rw [retrieve_of_getCredentials_ok p post out hgc]
    exact ⟨rfl, rfl⟩

/-- Witness for C10: a successful retrieval returns the provider name,
the configured service-instance id, and the access token of the
response. -/
theorem retrieve_value_provider_name_witness :
    (sampleProviderCustomEP.Retrieve (postWellFormed 100 "tok")).value.ProviderName =
        "IBMIAMProvider" ∧
    (sampleProviderCustomEP.Retrieve (postWellFormed 100 "tok")).value.ServiceInstanceID =
        "sid2" ∧
    (sampleProviderCustomEP.Retrieve (postWellFormed 100 "tok")).value.SessionToken = "tok" :=
  ⟨(retrieve_value_provider_name sampleProviderCustomEP (postWellFormed 100 "tok")).1,
   (retrieve_value_provider_name sampleProviderCustomEP (postWellFormed 100 "tok")).2
      { Expiration := 100, AccessToken := "tok" } rfl⟩

/-- A provider configured with a negative expiry window. -/
def negativeWindowProvider : Provider :=
  { expiry := { expiration := none }, apiKey := "key3",
    serviceInstanceID := "sid3", IAMEndpoint := "", ExpiryWindow := -10 }

/-- Claim C1, counterexample to the claim as stated: with expiry window
W = -10, a successful retrieval stores expiration E = 100; at current
time 100, which is strictly before E - W = 110, the claim requires
IsExpired to be false, yet it is true (a window of 0 or less is ignored,
so the threshold is E itself). -/
theorem retrieve_isExpired_negative_window_counterexample :
    (negativeWindowProvider.Retrieve (postWellFormed 100 "tok")).retErr = none ∧
    (100 : Int) < 100 - negativeWindowProvider.ExpiryWindow ∧
    (negativeWindowProvider.Retrieve (postWellFormed 100 "tok")).provider.IsExpired 100 =
      true :=
  ⟨rfl, by decide, rfl⟩

/-- Claim C1 (amended: for a nonnegative expiry window W): after a
successful `Retrieve` stored expiration timestamp E, `IsExpired` is
false whenever the current time is strictly before E - W and true
whenever the current time is at or after E - W. -/
theorem retrieve_isExpired_threshold (p : Provider) (post : FormRequest → PostResult)
    (out : getCredentialsOutput) (now : Int)
    (hw : 0 ≤ p.ExpiryWindow)
    (hs : (p.getCredentials post).2 = Except.ok out) :
    (now < out.Expiration - p.ExpiryWindow →
      (p.Retrieve post).provider.IsExpired now = false) ∧
    (out.Expiration - p.ExpiryWindow ≤ now →
      (p.Retrieve post).provider.IsExpired now = true) := by
  rw [retrieve_of_getCredentials_ok p post out hs]
  unfold Provider.IsExpired Expiry.IsExpired Expiry.SetExpiration
  simp only [decide_eq_true_eq, decide_eq_false_iff_not]
  constructor <;> intro h <;> split <;> omega

/-- Witness for amended C1: with window 5 and expiration 100, IsExpired
is false at time 90 and true at time 95. -/
theorem retrieve_isExpired_threshold_witness :
    (sampleProviderCustomEP.Retrieve (postWellFormed 100 "tok")).provider.IsExpired 90 =
        false ∧
    (sampleProviderCustomEP.Retrieve (postWellFormed 100 "tok")).provider.IsExpired 95 =
        true :=
  ⟨(retrieve_isExpired_threshold sampleProviderCustomEP (postWellFormed 100 "tok")
      { Expiration := 100, AccessToken := "tok" } 90 (by decide) rfl).1 (by decide),
   (retrieve_isExpired_threshold sampleProviderCustomEP (postWellFormed 100 "tok")
      { Expiration := 100, AccessToken := "tok" } 95 (by decide) rfl).2 (by decide)⟩

/-- Claim C2, counterexample to the claim as stated: against an endpoint
answering 200 with a malformed body, `Retrieve` fails, but the error
returned to the caller is an awserr with code `CredentialsEndpointError`
wrapping the decode error, not the decode error propagated unchanged. -/
theorem retrieve_decode_error_wrapped_counterexample :
    (sampleProviderDefaultEP.Retrieve (postMalformed "invalid character")).retErr =
      some (.awsErr "CredentialsEndpointError" "failed to load credentials"
        (.jsonDecodeErr "invalid character")) ∧
    (sampleProviderDefaultEP.Retrieve (postMalformed "invalid character")).retErr ≠
      some (.jsonDecodeErr "invalid character") :=
  ⟨rfl, by decide⟩

/-- Claim C2 (amended): when the token endpoint answers 200 with a body
that is not well-formed JSON, `Retrieve` fails, and the caller receives
the decode error wrapped as the original error inside an awserr with
code `CredentialsEndpointError` and message
`failed to load credentials` (the same wrapping as endpoint failures),
not the decode error unchanged. -/
theorem retrieve_wraps_decode_error (p : Provider) (post : FormRequest → PostResult)
    (msg : String)
    (h : post p.postFormRequest =
      PostResult.ok { StatusCode := 200, RespBody := Body.malformed msg }) :
    (p.Retrieve post).retErr =
      some (.awsErr "CredentialsEndpointError" "failed to load credentials"
        (.jsonDecodeErr msg)) := by
  have hgc : (p.getCredentials post).2 = Except.error (.jsonDecodeErr msg) := by
    simp [Provider.getCredentials, h, decodeGetCredentialsOutput]
  rw [retrieve_of_getCredentials_error p post _ hgc]

/-- Witness for amended C2 at a concrete provider and body. -/
theorem retrieve_wraps_decode_error_witness :
    (sampleProviderCustomEP.Retrieve (postMalformed "unexpected end of JSON input")).retErr =
      some (.awsErr "CredentialsEndpointError" "failed to load credentials"
        (.jsonDecodeErr "unexpected end of JSON input")) :=
  retrieve_wraps_decode_error sampleProviderCustomEP
    (postMalformed "unexpected end of JSON input") "unexpected end of JSON input" rfl

end IBMSDK
